import Mathlib

/-
Verification development for the UPBGE in-game debugger GUI
(src/GUI_FULL.py and src/gui_basic.py).

Shallow embedding conventions:
- Python floats are modelled as exact rationals (ℚ); the builtin
  round(x, digits) is modelled as exact decimal rounding half-to-even
  (Python's documented tie-breaking rule) at the given number of digits.
- A BGE game object is modelled by the record of the attributes the
  debugger reads (name, getPhysicsId, mass, velocities, transform,
  property bag, meshes/materials).
- Qt layouts of rows are modelled as lists of Row values; a QFormLayout
  addRow call appends one Row.  The six property tabs are the six lists
  of a Panels record.
- The PyQt object-list widget is modelled as a list of
  (button text, visible?) pairs; filter_objects toggles visibility,
  update_object_list rebuilds the list with every button visible.
- Exceptions are modelled with Except String; a try/except block that
  calls show_error is modelled as a function returning the list of
  error reports it produced.
-/

namespace UPBGE

/-! ## Value Formatter: the `truncate` helper (GUI_FULL.py 339-345, gui_basic.py 267-273) -/

/-- Round-half-to-even of a rational to an integer: the tie-breaking rule of
Python's builtin round. -/
def roundHalfEven (x : ℚ) : ℤ :=
  if x - (⌊x⌋ : ℚ) < 1/2 then ⌊x⌋
  else if 1/2 < x - (⌊x⌋ : ℚ) then ⌊x⌋ + 1
  else if ⌊x⌋ % 2 = 0 then ⌊x⌋ else ⌊x⌋ + 1

/-- Python's round(q, digits) on a float value modelled as an exact rational:
round to the nearest multiple of 10 ^ (-digits), ties to even. -/
def pyRound (digits : ℕ) (q : ℚ) : ℚ :=
  (roundHalfEven (q * 10 ^ digits) : ℚ) / 10 ^ digits

/-- A Python value as seen by `truncate`: floats, ints, bools, strings,
plain lists, and the mathutils Vector / Euler sequences (whose components
are floats). -/
inductive PyValue where
  | float (q : ℚ)
  | intVal (n : ℤ)
  | boolVal (b : Bool)
  | strVal (s : String)
  | listVal (vs : List PyValue)
  | vec (qs : List ℚ)
  | euler (qs : List ℚ)

mutual

/-- truncate(value, digits=3) from the source:
if isinstance(value, float): return round(value, digits);
elif isinstance(value, (list, mathutils.Vector, mathutils.Euler)):
return the Python list of the truncated elements (Vector/Euler components
are floats, so each goes through the float branch); else return value. -/
def truncate (digits : ℕ) : PyValue → PyValue
  | .float q => .float (pyRound digits q)
  | .listVal vs => .listVal (truncateList digits vs)
  | .vec qs => .listVal (qs.map (fun q => .float (pyRound digits q)))
  | .euler qs => .listVal (qs.map (fun q => .float (pyRound digits q)))
  | v => v

/-- The list comprehension inside truncate: truncate applied to each element. -/
def truncateList (digits : ℕ) : List PyValue → List PyValue
  | [] => []
  | v :: vs => truncate digits v :: truncateList digits vs

end

/-! ## Scene model: the attributes of a bge game object read by the debugger -/

/-- A 3-component value (worldPosition, worldScale, Euler angles). -/
structure Vec3 where
  x : ℚ
  y : ℚ
  z : ℚ

/-- math.pi as the exact value of the IEEE-754 double 3.141592653589793. -/
def mathPi : ℚ := 884279719003555 / 281474976710656

/-- math.degrees(r) = r * 180 / math.pi on doubles modelled as rationals. -/
def degrees (r : ℚ) : ℚ := r * 180 / mathPi

/-- The slice of a bge game object that the debugger reads.
physicsId models getPhysicsId() (Python truthiness: nonzero means physics
enabled); properties models getPropertyNames() together with obj[key]
lookups, in order; eachMeshMaterials models obj.meshes as the list of
material-name lists, one per mesh. worldOrientationEuler is the
to_euler() result of worldOrientation, in radians. -/
structure GameObject where
  name : String
  physicsId : ℕ
  mass : ℚ
  linearVelocity : List ℚ
  angularVelocity : List ℚ
  worldPosition : Vec3
  worldOrientationEuler : Vec3
  worldScale : Vec3
  properties : List (String × PyValue)
  eachMeshMaterials : List (List String)

/-! ## Rows and category panels -/

/-- One row added to a QFormLayout.
labeled: layout.addRow(label, QLabel(str(value)));
keyed: layout.addRow(QLabel(key ++ ": " ++ value)) in the game tab;
triple: a transform row whose QLabel text interpolates three truncated
components; plain: layout.addRow(QLabel(text)). -/
inductive Row where
  | labeled (label : String) (value : PyValue)
  | keyed (key : String) (value : PyValue)
  | triple (label : String) (x y z : PyValue)
  | plain (text : String)

/-- The six property tabs in order: Physics, Game, Transform, Materials,
Animations, Logic Sensors. -/
structure Panels where
  physics : List Row
  game : List Row
  transform : List Row
  materials : List Row
  animations : List Row
  logicSensors : List Row

def emptyPanels : Panels := ⟨[], [], [], [], [], []⟩

/-- populate_physics_tab (GUI_FULL.py 197-207, gui_basic.py 161-171):
if obj.getPhysicsId() is truthy, three labeled rows with truncated mass,
linearVelocity, angularVelocity; otherwise the single placeholder row. -/
def populate_physics_tab (obj : GameObject) : List Row :=
  if obj.physicsId ≠ 0 then
    [ Row.labeled "Mass:" (truncate 3 (.float obj.mass)),
      Row.labeled "Linear Velocity:" (truncate 3 (.vec obj.linearVelocity)),
      Row.labeled "Angular Velocity:" (truncate 3 (.vec obj.angularVelocity)) ]
  else
    [ Row.plain "No physics properties available." ]

/-- populate_game_tab: one row per property name, text key ++ ": " ++ truncate(value). -/
def populate_game_tab (obj : GameObject) : List Row :=
  obj.properties.map (fun kv => Row.keyed kv.1 (truncate 3 kv.2))

/-- populate_transform_tab: position, rotation (Euler converted to degrees),
scale, each component truncated. -/
def populate_transform_tab (obj : GameObject) : List Row :=
  [ Row.triple "Position:" (truncate 3 (.float obj.worldPosition.x))
      (truncate 3 (.float obj.worldPosition.y)) (truncate 3 (.float obj.worldPosition.z)),
    Row.triple "Rotation:" (truncate 3 (.float (degrees obj.worldOrientationEuler.x)))
      (truncate 3 (.float (degrees obj.worldOrientationEuler.y)))
      (truncate 3 (.float (degrees obj.worldOrientationEuler.z))),
    Row.triple "Scale:" (truncate 3 (.float obj.worldScale.x))
      (truncate 3 (.float obj.worldScale.y)) (truncate 3 (.float obj.worldScale.z)) ]

/-- populate_materials_tab: if obj.meshes is non-empty, one row with the
comma-joined material names of the first mesh; otherwise a placeholder. -/
def populate_materials_tab (obj : GameObject) : List Row :=
  match obj.eachMeshMaterials with
  | [] => [ Row.plain "No materials available." ]
  | m :: _ => [ Row.labeled "Materials:" (.strVal (String.intercalate ", " m)) ]

/-- populate_animations_tab: fixed placeholder row. -/
def populate_animations_tab (_obj : GameObject) : List Row :=
  [ Row.plain "No animation data available." ]

/-- populate_logic_sensors_tab: fixed placeholder row. -/
def populate_logic_sensors_tab (_obj : GameObject) : List Row :=
  [ Row.plain "No logic sensors available." ]

/-- The tab-population sequence of update_properties_tabs after it clears
the six layouts: each tab ends up holding exactly its presenter's rows. -/
def populateAll (obj : GameObject) : Panels :=
  ⟨ populate_physics_tab obj, populate_game_tab obj, populate_transform_tab obj,
    populate_materials_tab obj, populate_animations_tab obj, populate_logic_sensors_tab obj ⟩

/-! ## Case-insensitive substring matching (Python: text.lower() in name.lower()) -/

def lowerChars (cs : List Char) : List Char := cs.map Char.toLower

/-- Whether the first character list is an initial segment of the second. -/
def startsWithChars : List Char → List Char → Bool
  | [], _ => true
  | _ :: _, [] => false
  | c :: cs, d :: ds => c == d && startsWithChars cs ds

/-- Python's substring containment needle in hay over character lists. -/
def hasSubChars (needle : List Char) : List Char → Bool
  | [] => startsWithChars needle []
  | d :: ds => startsWithChars needle (d :: ds) || hasSubChars needle ds

/-- text.lower() in hay.lower(): case-insensitive substring test used by
filter_objects. -/
def containsCI (hay needle : String) : Bool :=
  hasSubChars (lowerChars needle.data) (lowerChars hay.data)

/-! ## GUI state and the refresh cycle -/

/-- The mutable debugger-window state the reconciliation claims are about:
self.selected_object, the object-list buttons as (text, visible) pairs,
and the six tab layouts. -/
structure GuiState where
  selected_object : Option String
  entries : List (String × Bool)
  tabs : Panels

/-- update_object_list (success path, GUI_FULL.py 126-143): rebuilds the
object-list layout with one freshly created (hence visible) button per
scene object, in scene order. -/
def update_object_list (scene : List GameObject) : List (String × Bool) :=
  scene.map (fun o => (o.name, true))

/-- filter_objects(text) (GUI_FULL.py 154-162): sets each button visible
iff text.lower() is contained in the button text lowered. -/
def filter_objects (text : String) (entries : List (String × Bool)) : List (String × Bool) :=
  entries.map (fun e => (e.1, containsCI e.1 text))

/-- The names of the currently visible entries, in layout order: the
displayed entity list of the spec. -/
def visibleNames (entries : List (String × Bool)) : List String :=
  (entries.filter (fun e => e.2)).map (fun e => e.1)

/-- scene.objects.get(name): first object with the given name, if any. -/
def sceneLookup (scene : List GameObject) (name : String) : Option GameObject :=
  scene.find? (fun o => o.name == name)

/-- update_properties_tabs (GUI_FULL.py 170-195, gui_basic.py 136-159):
if no object is selected, return unchanged; if the selected name is not
in the scene, return unchanged (early return happens before any tab is
cleared, and selected_object is not reset); otherwise clear the six tab
layouts and repopulate them from the found object. -/
def update_properties_tabs (scene : List GameObject) (st : GuiState) : GuiState :=
  match st.selected_object with
  | none => st
  | some name =>
    match sceneLookup scene name with
    | none => st
    | some obj => { st with tabs := populateAll obj }

/-- refresh_properties tick body (GUI_FULL.py 253-259, gui_basic.py 217-220),
success path: update_object_list then update_properties_tabs. -/
def refresh_properties (scene : List GameObject) (st : GuiState) : GuiState :=
  update_properties_tabs scene { st with entries := update_object_list scene }

/-! ## Fault propagation structure of the two refresh variants -/

/-- One try/except block of GUI_FULL that calls self.show_error(ctx, e):
the list of error reports it emits (empty on success, exactly one on
failure; the exception never escapes). -/
def tryShowError (ctx : String) (body : Except String Unit) : List String :=
  match body with
  | .ok _ => []
  | .error e => [ctx ++ ": " ++ e]

/-- Number of failures carried by a stage outcome. -/
def faultCount : Except String Unit → ℕ
  | .ok _ => 0
  | .error _ => 1

/-- GUI_FULL.refresh_properties: both stages run inside their own
try/except (inside update_object_list and update_properties_tabs), each
reporting via show_error; the outer try/except of refresh_properties has
nothing left to catch because the inner handlers swallow every exception.
Returns the reports emitted and whether the tick ran to completion. -/
def refresh_properties_full (listStage tabsStage : Except String Unit) :
    List String × Bool :=
  (tryShowError "Error updating object list" listStage ++
    tryShowError "Error updating properties" tabsStage, true)

/-- gui_basic.refresh_properties: no try/except anywhere on the tick path;
the first raising stage aborts the tick and the exception unwinds to the
caller. -/
def refresh_properties_basic (listStage tabsStage : Except String Unit) :
    Except String Unit := do
  listStage
  tabsStage

/-! ## Playback commands -/

/-- Calls forwarded to the bge playback API. -/
inductive SinkCall where
  | setLogicTicRate (r : ℚ)
  | setTimeScale (s : ℚ)
  | nextFrame
  | showMouse (b : Bool)

/-- The simulation state mutated by the Playback Command Sink. -/
structure SimState where
  logicTicRate : ℚ
  timeScale : ℚ

/-- Sign prefix of a numeric literal: (negative?, rest). -/
def parseSign : List Char → Bool × List Char
  | '-' :: r => (true, r)
  | '+' :: r => (false, r)
  | cs => (false, cs)

/-- Longest initial run of decimal digits. -/
def takeDigits : List Char → List Char × List Char
  | [] => ([], [])
  | c :: cs =>
    if c.isDigit then
      let p := takeDigits cs
      (c :: p.1, p.2)
    else ([], c :: cs)

/-- Value of a digit run read left to right. -/
def digitsToNat : List Char → ℕ → ℕ
  | [], acc => acc
  | c :: cs, acc => digitsToNat cs (acc * 10 + (c.toNat - 48))

/-- Unsigned decimal mantissa: digits, digits.digits, or .digits. -/
def parseUnsigned (cs : List Char) : Option (ℚ × List Char) :=
  let ip := takeDigits cs
  match ip.2 with
  | '.' :: r2 =>
    let fp := takeDigits r2
    if ip.1.isEmpty && fp.1.isEmpty then none
    else
      some ((digitsToNat ip.1 0 : ℚ) + (digitsToNat fp.1 0 : ℚ) / 10 ^ fp.1.length, fp.2)
  | _ => if ip.1.isEmpty then none else some ((digitsToNat ip.1 0 : ℚ), ip.2)

/-- Model of Python's float(text) builtin for plain decimal literals with
optional sign, fraction and exponent; text that is not such a literal
(or the special forms inf/nan and underscore separators, which this model
does not accept) yields none, the ValueError case. -/
def pyFloat (s : String) : Option ℚ :=
  let sg := parseSign s.data
  match parseUnsigned sg.2 with
  | none => none
  | some (mant, rest) =>
    let signed := if sg.1 then -mant else mant
    match rest with
    | [] => some signed
    | c :: r2 =>
      if c == 'e' || c == 'E' then
        let esg := parseSign r2
        let eds := takeDigits esg.2
        if eds.1.isEmpty || !eds.2.isEmpty then none
        else if esg.1 then some (signed / 10 ^ digitsToNat eds.1 0)
        else some (signed * 10 ^ digitsToNat eds.1 0)
      else none

/-- set_fps (GUI_FULL.py 261-268, gui_basic.py 222-229): parse the text
with float(); on success call bge.logic.setLogicTicRate(fps); on
ValueError report exactly one "Invalid FPS value." error and forward
nothing.  Returns (simulation state, forwarded sink calls, error reports). -/
def set_fps (text : String) (sim : SimState) : SimState × List SinkCall × List String :=
  match pyFloat text with
  | some fps => ({ sim with logicTicRate := fps }, [SinkCall.setLogicTicRate fps], [])
  | none => (sim, [], ["Invalid FPS value."])

/-- Neither module ever assigns the global mouse_visible before
toggle_mouse runs, so at session start the global name is unbound. -/
def initial_mouse_visible : Option Bool := none

/-- toggle_mouse (GUI_FULL.py 311-319): mouse_visible = not mouse_visible
raises NameError while the global is unbound (the except block reports it
and the flag stays unbound, no showMouse call); once bound it would flip
and forward the new value.  Returns (flag, sink calls, error reports). -/
def toggle_mouse (mouseVisible : Option Bool) :
    Option Bool × List SinkCall × List String :=
  match mouseVisible with
  | none => (none, [], ["Error toggling mouse visibility."])
  | some b => (some (!b), [SinkCall.showMouse (!b)], [])

/-! ## Concrete scenes used as counterexamples and witnesses -/

/-- A physics-enabled object named apple with one dynamic property. -/
def objA : GameObject :=
  { name := "apple"
    physicsId := 1
    mass := 5/2
    linearVelocity := [1, 0, 0]
    angularVelocity := [0, 0, 0]
    worldPosition := ⟨0, 0, 0⟩
    worldOrientationEuler := ⟨0, 0, 0⟩
    worldScale := ⟨1, 1, 1⟩
    properties := [("health", .intVal 42)]
    eachMeshMaterials := [["Mat"]] }

/-- A physics-less object named berry. -/
def objB : GameObject :=
  { name := "berry"
    physicsId := 0
    mass := 0
    linearVelocity := [0, 0, 0]
    angularVelocity := [0, 0, 0]
    worldPosition := ⟨0, 0, 0⟩
    worldOrientationEuler := ⟨0, 0, 0⟩
    worldScale := ⟨1, 1, 1⟩
    properties := []
    eachMeshMaterials := [] }

/-- Window state after selecting apple and presenting it. -/
def stA : GuiState :=
  { selected_object := some "apple"
    entries := update_object_list [objA, objB]
    tabs := populateAll objA }

/-! ## Helper lemmas about the rounding kernel -/

theorem roundHalfEven_intCast (m : ℤ) : roundHalfEven (m : ℚ) = m := by
  unfold roundHalfEven
  simp

theorem pyRound_idem (d : ℕ) (q : ℚ) : pyRound d (pyRound d q) = pyRound d q := by
  unfold pyRound
  have h10 : ((10 : ℚ)) ^ d ≠ 0 := by positivity
  rw [div_mul_cancel₀ _ h10, roundHalfEven_intCast]

theorem abs_sub_roundHalfEven (x : ℚ) : |x - (roundHalfEven x : ℚ)| ≤ 1/2 := by
  have h0 : (⌊x⌋ : ℚ) ≤ x := Int.floor_le x
  have h1 : x < ⌊x⌋ + 1 := Int.lt_floor_add_one x
  unfold roundHalfEven
  split_ifs with hr hr2 he
  · rw [abs_of_nonneg (by linarith)]
    linarith
  · rw [abs_of_nonpos (by push_cast; linarith)]
    push_cast
    linarith
  · rw [abs_of_nonneg (by linarith)]
    linarith
  · rw [abs_of_nonpos (by push_cast; linarith)]
    push_cast
    linarith

theorem roundHalfEven_nonneg (x : ℚ) (hx : 0 ≤ x) : 0 ≤ roundHalfEven x := by
  have h := Int.floor_nonneg.mpr hx
  unfold roundHalfEven
  split_ifs <;> omega

theorem roundHalfEven_nonpos (x : ℚ) (hx : x ≤ 0) : roundHalfEven x ≤ 0 := by
  have hfl : (⌊x⌋ : ℚ) ≤ x := Int.floor_le x
  have hf0 : ⌊x⌋ ≤ 0 := by exact_mod_cast hfl.trans hx
  unfold roundHalfEven
  split_ifs with h1 h2 h3
  · exact hf0
  · have hcast : (⌊x⌋ : ℚ) < 0 := by linarith
    have : ⌊x⌋ < 0 := by exact_mod_cast hcast
    omega
  · exact hf0
  · have hcast : (⌊x⌋ : ℚ) < 0 := by linarith
    have : ⌊x⌋ < 0 := by exact_mod_cast hcast
    omega

theorem pyRound_abs_sub (d : ℕ) (q : ℚ) :
    |q - pyRound d q| ≤ 1 / (2 * 10 ^ d) := by
  have h := abs_sub_roundHalfEven (q * 10 ^ d)
  have hp : (0 : ℚ) < 10 ^ d := by positivity
  unfold pyRound
  have heq : q - (roundHalfEven (q * 10 ^ d) : ℚ) / 10 ^ d =
      (q * 10 ^ d - (roundHalfEven (q * 10 ^ d) : ℚ)) / 10 ^ d := by
    field_simp
  rw [heq, abs_div, abs_of_pos hp, div_le_iff₀ hp]
  have hgoal : 1 / (2 * 10 ^ d) * 10 ^ d = (1 / 2 : ℚ) := by
    field_simp
    ring
  rw [hgoal]
  exact h

theorem pyRound_sign (d : ℕ) (q : ℚ) :
    0 ≤ q * (roundHalfEven (q * 10 ^ d) : ℚ) := by
  rcases le_or_lt 0 q with h | h
  · have hx : (0 : ℚ) ≤ q * 10 ^ d := by positivity
    have h2 := roundHalfEven_nonneg _ hx
    have h3 : (0 : ℚ) ≤ (roundHalfEven (q * 10 ^ d) : ℚ) := by exact_mod_cast h2
    exact mul_nonneg h h3
  · have hq : q ≤ 0 := h.le
    have hx : q * 10 ^ d ≤ 0 := by
      have hpow : (0 : ℚ) ≤ 10 ^ d := by positivity
      exact mul_nonpos_of_nonpos_of_nonneg hq hpow
    have h2 := roundHalfEven_nonpos _ hx
    have h3 : (roundHalfEven (q * 10 ^ d) : ℚ) ≤ 0 := by exact_mod_cast h2
    nlinarith

/-! ## Helper lemmas about truncate -/

theorem truncateList_eq_map (d : ℕ) (vs : List PyValue) :
    truncateList d vs = vs.map (truncate d) := by
  induction vs with
  | nil => rfl
  | cons v rest ih => simp [truncateList, ih]

mutual

theorem truncate_truncate (d : ℕ) : (v : PyValue) → truncate d (truncate d v) = truncate d v
  | .float q => by simp [truncate, pyRound_idem]
  | .intVal n => rfl
  | .boolVal b => rfl
  | .strVal s => rfl
  | .listVal vs => by simp [truncate, truncateList_truncate d vs]
  | .vec qs => by
    simp [truncate, truncateList_eq_map, List.map_map, Function.comp, pyRound_idem]
  | .euler qs => by
    simp [truncate, truncateList_eq_map, List.map_map, Function.comp, pyRound_idem]

theorem truncateList_truncate (d : ℕ) :
    (vs : List PyValue) → truncateList d (truncateList d vs) = truncateList d vs
  | [] => rfl
  | v :: vs => by simp [truncateList, truncate_truncate d v, truncateList_truncate d vs]

end

/-! ## Claim theorems -/

/-- Claim C1 counterexample: with apple selected and a new snapshot holding
only berry, the selected identifier is absent from the snapshot, yet the
selection after reconciliation is still apple, not none — a dangling
reference, contradicting the claim as stated. -/
theorem update_properties_tabs_absent_keeps_selection_cex :
    sceneLookup [objB] "apple" = none ∧
    (update_properties_tabs [objB] stA).selected_object = some "apple" ∧
    some "apple" ≠ (none : Option String) := by
  exact ⟨rfl, rfl, by simp⟩

/-- Claim C1 (amended): reconciliation preserves the selection verbatim
whether or not the selected identifier is present in the new snapshot;
when it is absent the whole state is returned unchanged, so the stale
selection is left dangling rather than reset to none. -/
theorem update_properties_tabs_selection_verbatim (scene : List GameObject) (st : GuiState) :
    (update_properties_tabs scene st).selected_object = st.selected_object ∧
    (∀ n, st.selected_object = some n → sceneLookup scene n = none →
      update_properties_tabs scene st = st) := by
  obtain ⟨sel, es, tb⟩ := st
  constructor
  · cases sel with
    | none => rfl
    | some n =>
      cases h : sceneLookup scene n with
      | none => simp [update_properties_tabs, h]
      | some obj => simp [update_properties_tabs, h]
  · intro n hn hlk
    cases sel with
    | none => rfl
    | some m =>
      obtain rfl : m = n := by simpa using hn
      simp [update_properties_tabs, hlk]

/-- Witness for the amended claim C1 at the concrete scene. -/
theorem update_properties_tabs_selection_verbatim_witness :
    (update_properties_tabs [objB] stA).selected_object = some "apple" ∧
    update_properties_tabs [objB] stA = stA := by
  exact ⟨(update_properties_tabs_selection_verbatim [objB] stA).1,
    (update_properties_tabs_selection_verbatim [objB] stA).2 "apple" rfl rfl⟩

/-- Claim C2 counterexample: apple was selected and presented, then a
refresh tick ran against a snapshot holding only berry; reconciliation
yields no presentable selection, yet the physics panel still holds
apple's three rows from the prior tick instead of being cleared. -/
theorem refresh_properties_stale_rows_cex :
    sceneLookup [objB] "apple" = none ∧
    (refresh_properties [objB] stA).tabs.physics = populate_physics_tab objA ∧
    (populate_physics_tab objA).length = 3 := by
  exact ⟨rfl, rfl, rfl⟩

/-- Claim C2 (amended): on every refresh tick in which the selection does
not resolve to an entity of the new snapshot (no selection, or the
selected identifier absent), the category panels are left exactly as they
were on the prior tick — nothing is cleared, so rows from a prior tick
persist. -/
theorem refresh_properties_no_selection_tabs_unchanged (scene : List GameObject)
    (st : GuiState) (h : st.selected_object.bind (sceneLookup scene) = none) :
    (refresh_properties scene st).tabs = st.tabs := by
  obtain ⟨sel, es, tb⟩ := st
  cases sel with
  | none => rfl
  | some n =>
    simp only [Option.some_bind] at h
    simp [refresh_properties, update_properties_tabs, h]

/-- Witness for the amended claim C2 at the concrete scene. -/
theorem refresh_properties_no_selection_tabs_unchanged_witness :
    (refresh_properties [objB] stA).tabs = stA.tabs :=
  refresh_properties_no_selection_tabs_unchanged [objB] stA rfl

/-- Claim C3 counterexample: with filter text a active, the displayed list
right after filtering is exactly the matching apple; but the next refresh
tick rebuilds the object list with every identifier visible, so the
displayed list no longer equals the matching set while the filter is
still active. -/
theorem refresh_tick_drops_filter_cex :
    visibleNames (filter_objects "a" (update_object_list [objA, objB])) = ["apple"] ∧
    visibleNames ((refresh_properties [objA, objB]
      { selected_object := none
        entries := filter_objects "a" (update_object_list [objA, objB])
        tabs := emptyPanels }).entries) = ["apple", "berry"] := by
  constructor
  · decide
  · decide

/-- Claim C3 (amended): immediately after a change of the filter text, the
visible entries are exactly the identifiers of the snapshot that
case-insensitively contain the filter, in snapshot order, and the empty
filter matches every identifier; a refresh tick, however, rebuilds the
list with every identifier visible, without reapplying the active filter. -/
theorem filter_objects_displayEntries_spec (scene : List GameObject) (text : String) :
    visibleNames (filter_objects text (update_object_list scene)) =
      (scene.map GameObject.name).filter (fun n => containsCI n text) ∧
    visibleNames (update_object_list scene) = scene.map GameObject.name ∧
    ∀ n : String, containsCI n "" = true := by
  refine ⟨?_, ?_, ?_⟩
  · induction scene with
    | nil => rfl
    | cons o rest ih =>
      simp only [update_object_list, filter_objects, visibleNames, List.map_cons,
        List.filter_cons] at ih ⊢
      cases h : containsCI o.name text <;> simp_all
  · induction scene with
    | nil => rfl
    | cons o rest ih =>
      simp only [update_object_list, visibleNames, List.map_cons, List.filter_cons] at ih ⊢
      simp_all
  · intro n
    unfold containsCI
    have h0 : lowerChars ("".data) = [] := rfl
    rw [h0]
    cases lowerChars n.data with
    | nil => rfl
    | cons c cs => simp [hasSubChars, startsWithChars]

/-- Claim C4 counterexample: in the basic variant, an exception raised by
the snapshot-acquisition stage unwinds uncaught across the tick boundary;
no fault reporter is involved at all. -/
theorem refresh_properties_basic_unwinds_cex :
    refresh_properties_basic (Except.error "SnapshotAccessError") (Except.ok ()) =
      Except.error "SnapshotAccessError" := rfl

/-- Claim C4 (amended): in the full variant every stage exception is caught
and reported via show_error exactly once per fault and the tick always
runs to completion; in the basic variant exceptions unwind uncaught. -/
theorem refresh_properties_full_fault_once (listStage tabsStage : Except String Unit) :
    (refresh_properties_full listStage tabsStage).2 = true ∧
    (refresh_properties_full listStage tabsStage).1.length =
      faultCount listStage + faultCount tabsStage := by
  cases listStage <;> cases tabsStage <;>
    simp [refresh_properties_full, tryShowError, faultCount]

/-- Claim C5: the value formatter is idempotent on every value, and on
every numeric vector (Vector, Euler, or plain list) the element count of
the formatted result equals the element count of the input. -/
theorem truncate_idem_and_count (d : ℕ) :
    (∀ v : PyValue, truncate d (truncate d v) = truncate d v) ∧
    (∀ qs : List ℚ, ∃ ws, truncate d (PyValue.vec qs) = PyValue.listVal ws ∧
      ws.length = qs.length) ∧
    (∀ qs : List ℚ, ∃ ws, truncate d (PyValue.euler qs) = PyValue.listVal ws ∧
      ws.length = qs.length) ∧
    (∀ vs : List PyValue, ∃ ws, truncate d (PyValue.listVal vs) = PyValue.listVal ws ∧
      ws.length = vs.length) := by
  refine ⟨truncate_truncate d, ?_, ?_, ?_⟩
  · intro qs
    exact ⟨_, rfl, by simp⟩
  · intro qs
    exact ⟨_, rfl, by simp⟩
  · intro vs
    exact ⟨_, rfl, by simp [truncateList_eq_map]⟩

/-- Claim C6: the formatter rounds a float scalar to the given number of
decimal digits (the result is an integer multiple of 10 ^ (-digits),
within half that grid step of the input, and never of the opposite sign),
applies the same scalar rounding element-wise to Vector and Euler
sequences preserving arity, and is the identity on every other value. -/
theorem truncate_format_spec (d : ℕ) :
    (∀ q : ℚ, ∃ m : ℤ, truncate d (PyValue.float q) = PyValue.float ((m : ℚ) / 10 ^ d) ∧
      |q - (m : ℚ) / 10 ^ d| ≤ 1 / (2 * 10 ^ d) ∧ 0 ≤ q * (m : ℚ)) ∧
    (∀ qs : List ℚ, truncate d (PyValue.vec qs) =
      PyValue.listVal (qs.map (fun q => truncate d (PyValue.float q)))) ∧
    (∀ qs : List ℚ, truncate d (PyValue.euler qs) =
      PyValue.listVal (qs.map (fun q => truncate d (PyValue.float q)))) ∧
    (∀ n : ℤ, truncate d (PyValue.intVal n) = PyValue.intVal n) ∧
    (∀ b : Bool, truncate d (PyValue.boolVal b) = PyValue.boolVal b) ∧
    (∀ s : String, truncate d (PyValue.strVal s) = PyValue.strVal s) := by
  refine ⟨?_, fun qs => rfl, fun qs => rfl, fun n => rfl, fun b => rfl, fun s => rfl⟩
  intro q
  exact ⟨roundHalfEven (q * 10 ^ d), rfl, pyRound_abs_sub d q, pyRound_sign d q⟩

/-- Claim C7: the Physics presenter yields exactly the single placeholder
row when the object has no physics id, and exactly three labeled rows
(mass, linear velocity, angular velocity) whose values are fixed points
of the formatter when it has one. -/
theorem populate_physics_tab_spec (obj : GameObject) :
    (obj.physicsId = 0 →
      populate_physics_tab obj = [Row.plain "No physics properties available."]) ∧
    (obj.physicsId ≠ 0 →
      (populate_physics_tab obj).length = 3 ∧
      ∀ r ∈ populate_physics_tab obj,
        ∃ lbl v, r = Row.labeled lbl v ∧ truncate 3 v = v) := by
  constructor
  · intro h
    simp [populate_physics_tab, h]
  · intro h
    refine ⟨by simp [populate_physics_tab, h], ?_⟩
    intro r hr
    simp only [populate_physics_tab, if_pos h, List.mem_cons, List.not_mem_nil,
      or_false] at hr
    rcases hr with rfl | rfl | rfl
    · exact ⟨_, _, rfl, truncate_truncate 3 _⟩
    · exact ⟨_, _, rfl, truncate_truncate 3 _⟩
    · exact ⟨_, _, rfl, truncate_truncate 3 _⟩

/-- Witness for claim C7 at a physics-less and a physics-enabled object. -/
theorem populate_physics_tab_spec_witness :
    populate_physics_tab objB = [Row.plain "No physics properties available."] ∧
    (populate_physics_tab objA).length = 3 := by
  exact ⟨(populate_physics_tab_spec objB).1 rfl,
    ((populate_physics_tab_spec objA).2 (by decide)).1⟩

/-- Claim C8: on any control text that does not parse as a float,
SetFrameRate produces exactly one validation error, forwards no call to
the playback sink, and leaves the simulation state untouched. -/
theorem set_fps_rejects_invalid (text : String) (sim : SimState)
    (h : pyFloat text = none) :
    set_fps text sim = (sim, [], ["Invalid FPS value."]) := by
  unfold set_fps
  rw [h]

/-- Witness for claim C8 at the control text abc. -/
theorem set_fps_rejects_invalid_witness :
    pyFloat "abc" = none ∧
    set_fps "abc" { logicTicRate := 60, timeScale := 1 } =
      ({ logicTicRate := 60, timeScale := 1 }, [], ["Invalid FPS value."]) := by
  exact ⟨by decide, set_fps_rejects_invalid "abc" _ (by decide)⟩

/-- Claim C9: evaluating toggle_mouse at the actual session-start state of
the global flag (unbound, since the module never initializes it) shows the
first toggle fails: the flag stays unbound, no showMouse call is
forwarded, and one error is reported — the command never flips any flag. -/
theorem toggle_mouse_first_toggle_fails :
    toggle_mouse initial_mouse_visible =
      (none, [], ["Error toggling mouse visibility."]) := rfl

/-- Claim C10: the formatter leaves integers and booleans unchanged — only
float instances are rounded — so an integer dynamic property such as 42
passes through as the identity at precision 3. -/
theorem truncate_int_bool_identity :
    (∀ d : ℕ, ∀ n : ℤ, truncate d (PyValue.intVal n) = PyValue.intVal n) ∧
    (∀ d : ℕ, ∀ b : Bool, truncate d (PyValue.boolVal b) = PyValue.boolVal b) ∧
    truncate 3 (PyValue.intVal 42) = PyValue.intVal 42 :=
  ⟨fun _ _ => rfl, fun _ _ => rfl, rfl⟩

end UPBGE
